import Mathlib

/-!
# Exoplanet Intelligence — verification of the prediction-serving pipeline

Shallow embedding of the parts of the repository that the specification's
claims are about:

* the client-side feature schema and validation
  (`frontend/src/components/InputForm.jsx` — `FEATURE_CONFIG`, `handleChange`,
  `handleSubmit` — and `frontend/src/utils/validation.js` — `validateFeature`,
  `validateAllFeatures`, reproduced verbatim in `docs/deployment_guide.md`);
* the axios response interceptor (`frontend/src/services/api.js`);
* the regression chart's interval construction
  (`frontend/src/components/Charts.jsx` — `RegressionChart`);
* the `predictions` table (`database/schema.sql`) with its `SERIAL PRIMARY KEY`
  and `task_type` CHECK constraint, and the seed rows (`database/seed_data.sql`);
* the backend Result Shaper, which is not part of the sources at hand; where a
  claim depends on it, it is modelled from the specification and marked as such.

JavaScript numbers are modelled as exact rationals (`ℚ`); none of the claims
under consideration is sensitive to floating-point rounding.  JavaScript
objects are modelled as association lists with distinct keys, `undefined` /
`null` as `Option` or an explicit constructor.
-/

/- The Batteries rational-number operations are sealed (`@[irreducible]`);
re-open them so that concrete runs of the embedded code reduce under
`decide` / `rfl`. -/
attribute [local semireducible] Rat.add Rat.mul Rat.sub Rat.inv Rat.ofScientific

namespace ExoIntel

/-- One entry of `FEATURE_CONFIG` (`InputForm.jsx`).  The JavaScript objects
have fields `key, name, unit, min, max, default, description`; the field
`required` is absent on every entry, so reading it yields `undefined`, which is
falsy — modelled by `required := false` on every entry. -/
structure FeatureSpec where
  key : String
  name : String
  unit : String
  min : ℚ
  max : ℚ
  default : ℚ
  description : String
  required : Bool
deriving DecidableEq, Repr

/-- `FEATURE_CONFIG` from `InputForm.jsx`: the client-side feature schema
(15 entries, including `koi_qof`). -/
def FEATURE_CONFIG : List FeatureSpec := [
  ⟨"koi_prad", "Planetary Radius", "Earth radii", 0.1, 30, 2.0, "Radius of the planet in Earth radii", false⟩,
  ⟨"koi_depth", "Transit Depth", "ppm", 0, 10000, 100, "Depth of the transit in parts per million", false⟩,
  ⟨"koi_period", "Orbital Period", "days", 0.1, 1000, 50, "Time between successive transits", false⟩,
  ⟨"koi_srad", "Stellar Radius", "Solar radii", 0.1, 10, 1.0, "Radius of the host star in solar radii", false⟩,
  ⟨"koi_steff", "Stellar Temperature", "Kelvin", 2500, 10000, 5778, "Effective temperature of the host star", false⟩,
  ⟨"koi_smass", "Stellar Mass", "Solar masses", 0.1, 5, 1.0, "Mass of the host star in solar masses", false⟩,
  ⟨"koi_slogg", "Surface Gravity", "log(g)", 1, 5, 4.5, "Surface gravity of the host star", false⟩,
  ⟨"koi_lum", "Luminosity", "log(L)", -3, 5, 0, "Luminosity of the host star", false⟩,
  ⟨"koi_impact", "Impact Parameter", "", 0, 2, 0.5, "Impact parameter of the transit", false⟩,
  ⟨"koi_duration", "Transit Duration", "hours", 0.1, 50, 3, "Duration of the transit", false⟩,
  ⟨"koi_dor", "Distance Ratio", "", 1, 200, 20, "Planet-star distance ratio (a/R*)", false⟩,
  ⟨"koi_model_snr", "Signal-to-Noise", "", 0, 500, 20, "Model signal-to-noise ratio", false⟩,
  ⟨"koi_kepmag", "Kepler Magnitude", "mag", 5, 20, 14, "Kepler magnitude of the target", false⟩,
  ⟨"koi_score", "Disposition Score", "", 0, 1, 0.5, "Probability score for planet disposition", false⟩,
  ⟨"koi_qof", "Quality Flag", "", 0, 1, 0.9, "Quality flag for the KOI (usually close to 1)", false⟩]

/-- A value held in the form state: a string (what `<input>` produces via
`e.target.value`), a number (the initial defaults), or `null`/`undefined`. -/
inductive RawValue
  | vStr (s : String)
  | vNum (q : ℚ)
  | vNull
deriving DecidableEq, Repr

/-- Digits-to-number accumulator for `parseFloatQ`. -/
def digitsToNat (l : List Char) : Nat :=
  l.foldl (fun a c => 10 * a + (c.toNat - 48)) 0

/-- JavaScript `parseFloat` on a string, over exact rationals: skip leading
whitespace, optional sign, decimal mantissa (digits, optional dot, digits),
optional exponent; trailing garbage is ignored; `NaN` (here `none`) when no
mantissa digit is found.  (`"Infinity"` is outside the rational model and
never arises from the numeric form inputs.) -/
def parseFloatQ (s : String) : Option ℚ :=
  let cs := s.toList.dropWhile (fun c => c = ' ' ∨ c = '\t' ∨ c = '\n' ∨ c = '\r')
  let signAndRest : ℚ × List Char :=
    match cs with
    | '-' :: rest => (-1, rest)
    | '+' :: rest => (1, rest)
    | _ => (1, cs)
  let sign := signAndRest.1
  let cs1 := signAndRest.2
  let intPart := cs1.takeWhile Char.isDigit
  let cs2 := cs1.dropWhile Char.isDigit
  let fracAndRest : List Char × List Char :=
    match cs2 with
    | '.' :: rest => (rest.takeWhile Char.isDigit, rest.dropWhile Char.isDigit)
    | _ => ([], cs2)
  let fracPart := fracAndRest.1
  let cs3 := fracAndRest.2
  if intPart = [] ∧ fracPart = [] then none
  else
    let mant : ℚ :=
      sign * ((digitsToNat intPart : ℚ) + (digitsToNat fracPart : ℚ) / (10 ^ fracPart.length))
    let expVal : ℤ :=
      match cs3 with
      | 'e' :: rest =>
        let esignAndRest : ℤ × List Char :=
          match rest with
          | '-' :: r => (-1, r)
          | '+' :: r => (1, r)
          | _ => (1, rest)
        let eds := esignAndRest.2.takeWhile Char.isDigit
        if eds = [] then 0 else esignAndRest.1 * (digitsToNat eds : ℤ)
      | 'E' :: rest =>
        let esignAndRest : ℤ × List Char :=
          match rest with
          | '-' :: r => (-1, r)
          | '+' :: r => (1, r)
          | _ => (1, rest)
        let eds := esignAndRest.2.takeWhile Char.isDigit
        if eds = [] then 0 else esignAndRest.1 * (digitsToNat eds : ℤ)
      | _ => 0
    some (mant * (10 : ℚ) ^ expVal)

/-- `parseFloat(value)` on a form value: numbers pass through (JavaScript
stringifies and re-parses a finite number to itself), strings are parsed,
`null`/`undefined` parse to `NaN` (`none`). -/
def parseRaw : RawValue → Option ℚ
  | .vStr s => parseFloatQ s
  | .vNum q => some q
  | .vNull => none

/-- The emptiness test of `validateFeature`:
`value === '' || value === null || value === undefined`. -/
def isEmptyValue : RawValue → Bool
  | .vStr s => s = ""
  | .vNum _ => false
  | .vNull => true

/-- Rendering of a bound in an error message (JavaScript template
interpolation of a number).  Every bound in `FEATURE_CONFIG` is an integer or
has denominator 10, which this covers exactly. -/
def qToString (q : ℚ) : String :=
  if q.den = 1 then toString q.num
  else
    let sgn := if q.num < 0 then "-" else ""
    let n := q.num.natAbs
    sgn ++ toString (n / q.den) ++ "." ++ toString (n % q.den)

/-- `validateFeature` from `frontend/src/utils/validation.js`: look up the
key's config entry (unknown key → error); empty value → error only when
`required`; `parseFloat`; range checks against `min` and `max`. -/
def validateFeature (key : String) (value : RawValue) (config : List FeatureSpec) :
    Option String :=
  match config.find? (fun f => f.key == key) with
  | none => some ("Unknown feature: " ++ key)
  | some fc =>
    if isEmptyValue value then
      if fc.required then some (fc.name ++ " is required") else none
    else
      match parseRaw value with
      | none => some (fc.name ++ " must be a number")
      | some q =>
        if q < fc.min then some (fc.name ++ " must be at least " ++ qToString fc.min)
        else if fc.max < q then some (fc.name ++ " must be at most " ++ qToString fc.max)
        else none

/-- JavaScript object access `features[key]`: the bound value, or `undefined`
(`vNull`) when the key is absent. -/
def lookupRaw (features : List (String × RawValue)) (key : String) : RawValue :=
  match features.find? (fun p => p.1 == key) with
  | some p => p.2
  | none => .vNull

/-- `validateAllFeatures` from `validation.js`: iterate over the *config*
entries (not over the keys of `features`), validate each, and collect the
errors keyed by feature key, in config order. -/
def validateAllFeatures (features : List (String × RawValue))
    (config : List FeatureSpec) : List (String × String) :=
  config.filterMap (fun f =>
    (validateFeature f.key (lookupRaw features f.key) config).map (fun e => (f.key, e)))

/-- The form state's initial value
(`FEATURE_CONFIG.reduce((acc, f) => ({ ...acc, [f.key]: f.default }), {})`):
each key bound to its numeric default, in schema order. -/
def initialFeatures : List (String × RawValue) :=
  FEATURE_CONFIG.map (fun f => (f.key, RawValue.vNum f.default))

/-- `handleChange`'s state update `{ ...prev, [key]: value }`: an existing key
is rebound in place (JavaScript object spread keeps the original insertion
position), a new key is appended at the end. -/
def handleChange (features : List (String × RawValue)) (key : String)
    (value : RawValue) : List (String × RawValue) :=
  if features.any (fun p => p.1 == key) then
    features.map (fun p => if p.1 == key then (key, value) else p)
  else
    features ++ [(key, value)]

/-- `InputForm.handleSubmit`: compute the full error map, publish it via
`setErrors`, and call `onSubmit(features)` only when the error map is empty.
The first component is the error map that is set; the second is `some` of the
exact argument passed to `onSubmit` (the raw `features` state), or `none` when
`onSubmit` is not invoked. -/
def handleSubmit (features : List (String × RawValue)) :
    List (String × String) × Option (List (String × RawValue)) :=
  let allErrors := validateAllFeatures features FEATURE_CONFIG
  (allErrors, if allErrors = [] then some features else none)

/-! ## Prediction results and the `predictions` table (`database/schema.sql`) -/

/-- The classification `output_result` payload (`seed_data.sql`):
`{prediction, confidence, probabilities: {CONFIRMED, "FALSE POSITIVE"}}`. -/
structure ClassificationOutput where
  prediction : String
  confidence : ℚ
  probConfirmed : ℚ
  probFalsePositive : ℚ
deriving DecidableEq, Repr

/-- The regression `output_result` payload (`seed_data.sql`):
`{prediction, confidence_interval: {lower, upper}, unit}`. -/
structure RegressionOutput where
  prediction : ℚ
  lower : ℚ
  upper : ℚ
  unit : String
deriving DecidableEq, Repr

/-- The `output_result` jsonb column, a tagged union over the task type. -/
inductive OutputResult
  | classification (c : ClassificationOutput)
  | regression (r : RegressionOutput)
deriving DecidableEq, Repr

/-- A row to insert into `predictions` — every column except the
store-assigned `id` (`INSERT INTO predictions (task_type, input_features,
output_result, model_name, created_at)`).  `createdAt` is in days relative to
`CURRENT_TIMESTAMP`, as in the seed file's `INTERVAL` arithmetic. -/
structure PredictionInsert where
  taskType : String
  inputFeatures : List (String × ℚ)
  outputResult : OutputResult
  modelName : String
  createdAt : ℤ
deriving DecidableEq, Repr

/-- A stored row of `predictions`, with its `SERIAL`-assigned `id`. -/
structure PredictionRow where
  id : ℕ
  taskType : String
  inputFeatures : List (String × ℚ)
  outputResult : OutputResult
  modelName : String
  createdAt : ℤ
deriving DecidableEq, Repr

/-- The CHECK constraint on `task_type`:
`CHECK (task_type IN ('classification', 'regression'))`. -/
def taskTypeValid (t : String) : Bool :=
  t == "classification" || t == "regression"

/-- The `predictions` table: its rows in insertion order, and the `SERIAL`
sequence's next value. -/
structure PredictionsTable where
  rows : List PredictionRow
  nextId : ℕ
deriving DecidableEq, Repr

/-- A freshly created table; PostgreSQL `SERIAL` sequences start at 1. -/
def emptyTable : PredictionsTable := ⟨[], 1⟩

/-- `INSERT INTO predictions ...` under the schema: the CHECK constraint on
`task_type` must hold or the insert fails; on success the row is appended with
the next `SERIAL` id and the sequence advances. -/
def insertPrediction (tbl : PredictionsTable) (inp : PredictionInsert) :
    Except String PredictionsTable :=
  if taskTypeValid inp.taskType then
    .ok ⟨tbl.rows ++ [⟨tbl.nextId, inp.taskType, inp.inputFeatures, inp.outputResult,
                       inp.modelName, inp.createdAt⟩],
         tbl.nextId + 1⟩
  else
    .error "new row for relation predictions violates check constraint"

/-- Run one insert; a failed insert leaves the table unchanged. -/
def applyInsert (tbl : PredictionsTable) (inp : PredictionInsert) : PredictionsTable :=
  match insertPrediction tbl inp with
  | .ok tbl2 => tbl2
  | .error _ => tbl

/-- Run a sequence of inserts against a fresh table. -/
def runInserts (l : List PredictionInsert) : PredictionsTable :=
  l.foldl applyInsert emptyTable

/-- Modelled from the spec: the History Store's read operation
(`list(task_type_filter?, limit, offset)`, §4.5); the backend route that
implements it (`backend/app/`) is not among the sources.  Optional filter by
task type, most-recent-first ordering, then offset/limit pagination. -/
def selectHistory (tbl : PredictionsTable) (filter : Option String)
    (limit offset : ℕ) : List PredictionRow :=
  let filtered : List PredictionRow := match filter with
    | some tt => tbl.rows.filter (fun r => r.taskType == tt)
    | none => tbl.rows
  ((filtered.reverse).drop offset).take limit

/-- The operations the core issues against the `predictions` table: the
Request Pipeline's insert (one per served prediction) and the history
endpoint's select.  No operation of the system issues `UPDATE` or `DELETE`. -/
inductive StoreOp
  | insertOp (inp : PredictionInsert)
  | selectOp (filter : Option String) (limit offset : ℕ)
deriving DecidableEq, Repr

/-- The table after one core operation (a select reads and leaves the table
as is). -/
def applyOp (tbl : PredictionsTable) : StoreOp → PredictionsTable
  | .insertOp i => applyInsert tbl i
  | .selectOp _ _ _ => tbl

/-! ## Seed rows (`database/seed_data.sql`) -/

/-- `input_features` of the first (classification) and second (regression)
seed inserts — the same 14-key vector. -/
def seedInputFeatures1 : List (String × ℚ) :=
  [("koi_prad", 2.5), ("koi_depth", 150), ("koi_period", 45.3), ("koi_srad", 1.2),
   ("koi_steff", 5800), ("koi_smass", 1.1), ("koi_slogg", 4.3), ("koi_lum", 0.1),
   ("koi_impact", 0.6), ("koi_duration", 3.5), ("koi_dor", 22.5),
   ("koi_model_snr", 25.0), ("koi_kepmag", 14.2), ("koi_score", 0.85)]

/-- `input_features` of the third seed insert. -/
def seedInputFeatures3 : List (String × ℚ) :=
  [("koi_prad", 1.2), ("koi_depth", 50), ("koi_period", 12.5), ("koi_srad", 0.9),
   ("koi_steff", 5500), ("koi_smass", 0.95), ("koi_slogg", 4.5), ("koi_lum", -0.2),
   ("koi_impact", 0.3), ("koi_duration", 2.8), ("koi_dor", 15.0),
   ("koi_model_snr", 18.5), ("koi_kepmag", 13.8), ("koi_score", 0.65)]

/-- First seed insert: classification, CONFIRMED at 0.92. -/
def seedInsert1 : PredictionInsert :=
  ⟨"classification", seedInputFeatures1,
   .classification ⟨"CONFIRMED", 0.92, 0.92, 0.08⟩,
   "classification_pipeline_v1", -1⟩

/-- Second seed insert: regression, 2.47 with interval [2.15, 2.79]. -/
def seedInsert2 : PredictionInsert :=
  ⟨"regression", seedInputFeatures1,
   .regression ⟨2.47, 2.15, 2.79, "Earth radii"⟩,
   "regression_pipeline_v1", -2⟩

/-- Third seed insert: classification, FALSE POSITIVE at 0.78. -/
def seedInsert3 : PredictionInsert :=
  ⟨"classification", seedInputFeatures3,
   .classification ⟨"FALSE POSITIVE", 0.78, 0.22, 0.78⟩,
   "classification_pipeline_v1", -3⟩

/-- The three seed inserts, in file order. -/
def seedInserts : List PredictionInsert := [seedInsert1, seedInsert2, seedInsert3]

/-! ## Result shaping -/

/-- The well-formedness of a classification result that C2 asserts:
probabilities sum to 1 within `1e-6`, the confidence is the chosen label's
probability, and the label is the argmax over
`{CONFIRMED, FALSE POSITIVE}` (ties to the alphabetically first label). -/
def classOutputOkB (c : ClassificationOutput) : Bool :=
  decide (|c.probConfirmed + c.probFalsePositive - 1| ≤ (1 : ℚ)/1000000) &&
  decide (c.confidence =
    (if c.prediction = "CONFIRMED" then c.probConfirmed else c.probFalsePositive)) &&
  decide (c.prediction =
    (if c.probConfirmed < c.probFalsePositive then "FALSE POSITIVE" else "CONFIRMED"))

/-- The well-formedness of a regression result that C3 asserts:
`lower ≤ point ≤ upper` and `lower ≥ 0`. -/
def regOutputOkB (r : RegressionOutput) : Bool :=
  decide (r.lower ≤ r.prediction) && decide (r.prediction ≤ r.upper) &&
  decide (0 ≤ r.lower)

/-- A stored row's `output_result` satisfies its task's well-formedness. -/
def rowOutputOkB (r : PredictionRow) : Bool :=
  match r.outputResult with
  | .classification c => classOutputOkB c
  | .regression rg => regOutputOkB rg

/-- Modelled from the spec: the backend Result Shaper for classification
(§4.4; `backend/app/` is not among the sources).  Given per-class raw
probability estimates, renormalize when their sum is off by more than `1e-6`
(`DegenerateScores`, here `none`, when that would divide by zero), then take
the argmax label — ties to the alphabetically first label, `CONFIRMED` — with
its probability as the confidence. -/
def shapeClassification (pC pFP : ℚ) : Option ClassificationOutput :=
  let s := pC + pFP
  if s = 0 then none
  else
    let qC := if |s - 1| ≤ (1 : ℚ)/1000000 then pC else pC / s
    let qFP := if |s - 1| ≤ (1 : ℚ)/1000000 then pFP else pFP / s
    some ⟨if qC < qFP then "FALSE POSITIVE" else "CONFIRMED",
          if qC < qFP then qFP else qC, qC, qFP⟩

/-- Modelled from the spec: the backend Result Shaper for regression (§4.4;
`backend/app/` is not among the sources).  The 95% interval is
`point ± 1.96 × standard_error`, with the lower bound clipped at zero. -/
def shapeRegression (point se : ℚ) : RegressionOutput :=
  let delta := 1.96 * se
  ⟨point, max 0 (point - delta), point + delta, "Earth radii"⟩

/-! ## Regression chart (`frontend/src/components/Charts.jsx`) -/

/-- JavaScript `a || b` on an optionally-present number: `b` when `a` is
absent (`undefined`) or `0` (falsy), else `a`. -/
def jsOrQ (v : Option ℚ) (d : ℚ) : ℚ :=
  match v with
  | some q => if q = 0 then d else q
  | none => d

/-- `RegressionChart`'s displayed data points `(lower, center, upper)`:
`center = prediction || 2.5`, `lower = confidenceInterval?.lower || (center - 0.5)`,
`upper = confidenceInterval?.upper || (center + 0.5)`. -/
def regressionChartData (prediction : Option ℚ) (ci : Option (ℚ × ℚ)) :
    ℚ × ℚ × ℚ :=
  let center := jsOrQ prediction 2.5
  let lower := jsOrQ (ci.map Prod.fst) (center - 0.5)
  let upper := jsOrQ (ci.map Prod.snd) (center + 0.5)
  (lower, center, upper)

/-! ## Response error interceptor (`frontend/src/services/api.js`) -/

/-- The fields of `error.response.data` the interceptor reads. -/
structure ErrorResponseData where
  detail : Option String
  message : Option String
deriving DecidableEq, Repr

/-- An axios error: the parsed response body when a response arrived, and
the transport-level `error.message`. -/
structure AxiosFailure where
  responseData : Option ErrorResponseData
  errMessage : String
deriving DecidableEq, Repr

/-- JavaScript truthiness of an optionally-present string for the `||` chain:
an absent or empty string is falsy. -/
def jsTruthyStr : Option String → Option String
  | some s => if s = "" then none else some s
  | none => none

/-- The response interceptor's rejected message:
`error.response?.data?.detail || error.response?.data?.message ||
error.message || 'Something went wrong'`. -/
def interceptErrorMessage (e : AxiosFailure) : String :=
  match jsTruthyStr (e.responseData.bind ErrorResponseData.detail) with
  | some s => s
  | none =>
    match jsTruthyStr (e.responseData.bind ErrorResponseData.message) with
    | some s => s
    | none => if e.errMessage = "" then "Something went wrong" else e.errMessage

/-- Modelled from the spec: the backend's error taxonomy (§7; `backend/app/`
is not among the sources). -/
inductive ApiError
  | validationError (fieldErrors : List (String × String))
  | unknownTaskType
  | featureMismatch
  | degenerateScores
  | internalError
deriving DecidableEq, Repr

/-- Modelled from the spec: the human-readable `detail` message of each error
kind (§7: per-field for validation, a generic message for server errors, never
a stack trace). -/
def errorDetail : ApiError → String
  | .validationError _ => "Invalid input: one or more feature values failed validation"
  | .unknownTaskType => "Prediction failed: unknown task type"
  | .featureMismatch => "Prediction failed: feature mismatch"
  | .degenerateScores => "Prediction failed: degenerate model scores"
  | .internalError => "Internal server error"

/-- Modelled from the spec: every non-2xx response body is JSON of shape
`{"detail": "<human-readable message>"}` (§6). -/
def errorBody (e : ApiError) : ErrorResponseData :=
  ⟨some (errorDetail e), none⟩

/-- `error.response?.data?.detail` of an axios failure. -/
def dataDetail (e : AxiosFailure) : Option String :=
  e.responseData.bind ErrorResponseData.detail

/-- `error.response?.data?.message` of an axios failure. -/
def dataMessage (e : AxiosFailure) : Option String :=
  e.responseData.bind ErrorResponseData.message

/-- Discriminates the numeric form values from strings and `null`. -/
def isNumericValue : RawValue → Bool
  | .vNum _ => true
  | _ => false

/-- A form state: defaults everywhere, `koi_prad` replaced by an
out-of-range number. -/
def outOfRangeInput : List (String × RawValue) :=
  handleChange initialFeatures "koi_prad" (RawValue.vNum 999999)

/-- A form state: defaults everywhere, `koi_prad` replaced by the typed
string "2.5" (what the input element yields after the user types). -/
def typedStringInput : List (String × RawValue) :=
  handleChange initialFeatures "koi_prad" (RawValue.vStr "2.5")

/-- A raw map carrying a key that is not in the declared schema. -/
def extraKeyInput : List (String × RawValue) :=
  initialFeatures ++ [("koi_bogus", RawValue.vNum 1)]

/-- An insert whose `task_type` is outside the CHECK constraint's set. -/
def badTaskInsert : PredictionInsert :=
  ⟨"clustering", [], .regression ⟨0, 0, 0, ""⟩, "m", 0⟩

/-! ## Helper lemmas -/

theorem jsTruthyStr_some_ne (o : Option String) (s : String)
    (h : jsTruthyStr o = some s) : s ≠ "" := by
  unfold jsTruthyStr at h
  cases o with
  | none => exact absurd h (by simp)
  | some t =>
    by_cases ht : t = ""
    · simp [ht] at h
    · simp [ht] at h
      exact h ▸ ht

theorem map_fst_update (m : List (String × RawValue)) (k : String) (v : RawValue) :
    (m.map (fun p => if p.1 == k then (k, v) else p)).map Prod.fst
      = m.map Prod.fst := by
  induction m with
  | nil => rfl
  | cons p l ih =>
    by_cases hk : p.1 = k
    · simp [hk, ih]
      intro a b _
      by_cases ha : a = k <;> simp [ha]
    · simp [hk, ih]
      intro a b _
      by_cases ha : a = k <;> simp [ha]

theorem filterMap_keys_sublist (config : List FeatureSpec)
    (g : FeatureSpec → Option String) :
    ((config.filterMap (fun s => (g s).map (fun e => (s.key, e)))).map Prod.fst).Sublist
      (config.map FeatureSpec.key) := by
  induction config with
  | nil => simp
  | cons a l ih =>
    cases hg : g a with
    | none => simpa [List.filterMap_cons, hg] using ih.cons a.key
    | some e => simpa [List.filterMap_cons, hg] using ih.cons₂ a.key

theorem lookupRaw_append_ne (f : List (String × RawValue)) (k k' : String)
    (v : RawValue) (h : k' ≠ k) :
    lookupRaw (f ++ [(k, v)]) k' = lookupRaw f k' := by
  unfold lookupRaw
  have hfind : (f ++ [(k, v)]).find? (fun p => p.1 == k')
      = f.find? (fun p => p.1 == k') := by
    induction f with
    | nil =>
      have hb : (k == k') = false := beq_eq_false_iff_ne.mpr (Ne.symm h)
      simp [List.find?, hb]
    | cons p l ih =>
      cases hp : (p.1 == k') with
      | true => simp [List.find?, hp]
      | false => simpa [List.find?, hp] using ih
  rw [hfind]

/-- The invariant the `predictions` table maintains under inserts: every
stored id is below the sequence's next value, ids are strictly increasing in
insertion order, and every stored `task_type` passed the CHECK constraint. -/
def tableInv (t : PredictionsTable) : Prop :=
  (∀ r ∈ t.rows, r.id < t.nextId) ∧
  ((t.rows.map PredictionRow.id).Pairwise (· < ·)) ∧
  (∀ r ∈ t.rows, taskTypeValid r.taskType = true)

theorem applyInsert_inv (t : PredictionsTable) (i : PredictionInsert)
    (h : tableInv t) : tableInv (applyInsert t i) := by
  unfold applyInsert insertPrediction
  cases hv : taskTypeValid i.taskType with
  | false => simpa [hv] using h
  | true =>
    obtain ⟨hbound, hpair, htask⟩ := h
    refine ⟨?_, ?_, ?_⟩ <;> simp only [hv, if_true]
    · intro r hr
      rcases List.mem_append.mp hr with hr | hr
      · exact Nat.lt_succ_of_lt (hbound r hr)
      · simp at hr
        simp [hr]
    · rw [List.map_append]
      refine List.pairwise_append.mpr ⟨hpair, by simp, ?_⟩
      intro a ha b hb
      simp at hb
      rcases List.mem_map.mp ha with ⟨r, hr, rfl⟩
      exact hb ▸ hbound r hr
    · intro r hr
      rcases List.mem_append.mp hr with hr | hr
      · exact htask r hr
      · simp at hr
        simp [hr, hv]

theorem foldl_applyInsert_inv (l : List PredictionInsert) :
    ∀ t : PredictionsTable, tableInv t → tableInv (l.foldl applyInsert t) := by
  induction l with
  | nil => intro t h; exact h
  | cons i l ih => intro t h; exact ih (applyInsert t i) (applyInsert_inv t i h)

theorem runInserts_inv (l : List PredictionInsert) : tableInv (runInserts l) :=
  foldl_applyInsert_inv l emptyTable ⟨by simp [emptyTable], by simp [emptyTable], by simp [emptyTable]⟩

theorem classOutputOkB_pair (qC qFP : ℚ) (h : |qC + qFP - 1| ≤ (1 : ℚ)/1000000) :
    classOutputOkB ⟨if qC < qFP then "FALSE POSITIVE" else "CONFIRMED",
                    if qC < qFP then qFP else qC, qC, qFP⟩ = true := by
  unfold classOutputOkB
  by_cases hlt : qC < qFP
  · simp [hlt]
    simpa using h
  · simp [hlt]
    simpa using h

/-! ## Claim theorems -/

/-- C1: if validation produces at least one field error, `handleSubmit` sets
the full error map and does not invoke `onSubmit` — so no inference request is
issued and, downstream, no history record can be written for the request. -/
theorem submit_blocked_on_validation_errors (features : List (String × RawValue))
    (h : (handleSubmit features).1 ≠ []) :
    (handleSubmit features).2 = none ∧
    (handleSubmit features).1 = validateAllFeatures features FEATURE_CONFIG := by
  have h' : validateAllFeatures features FEATURE_CONFIG ≠ [] := h
  refine ⟨?_, rfl⟩
  show (if validateAllFeatures features FEATURE_CONFIG = []
        then some features else none) = none
  rw [if_neg h']

/-- Witness for C1 at a concrete out-of-range input. -/
theorem submit_blocked_on_validation_errors_witness :
    (handleSubmit outOfRangeInput).2 = none ∧
    (handleSubmit outOfRangeInput).1 = validateAllFeatures outOfRangeInput FEATURE_CONFIG :=
  submit_blocked_on_validation_errors outOfRangeInput (by decide)

/-- C4 fails on the code: a raw map whose `koi_prad` is the typed string
"2.5" passes validation, and `onSubmit` receives the raw string itself — the
submitted value is not coerced to a numeric type. -/
theorem submit_not_coerced_counterexample :
    (handleSubmit typedStringInput).1 = [] ∧
    (handleSubmit typedStringInput).2 = some typedStringInput ∧
    lookupRaw typedStringInput "koi_prad" = RawValue.vStr "2.5" ∧
    isNumericValue (lookupRaw typedStringInput "koi_prad") = false := by
  refine ⟨by decide, ?_, by decide, by decide⟩
  show (if validateAllFeatures typedStringInput FEATURE_CONFIG = []
        then some typedStringInput else none) = some typedStringInput
  rw [if_pos (by decide)]

/-- C4 amended: every field is checked independently (the error map names
every failing field), the error map and the form state follow schema-declared
order, but the map passed to `onSubmit` is the raw state unchanged — values
are parsed to numbers only transiently for checking, never coerced in the
submitted map. -/
theorem validation_complete_ordered_passthrough :
    (∀ f : List (String × RawValue),
      (handleSubmit f).2 = none ∨ (handleSubmit f).2 = some f) ∧
    (∀ f : List (String × RawValue), ∀ s : FeatureSpec, ∀ e : String,
      s ∈ FEATURE_CONFIG →
      validateFeature s.key (lookupRaw f s.key) FEATURE_CONFIG = some e →
      (s.key, e) ∈ (handleSubmit f).1) ∧
    (∀ f : List (String × RawValue),
      ((handleSubmit f).1.map Prod.fst).Sublist (FEATURE_CONFIG.map FeatureSpec.key)) ∧
    initialFeatures.map Prod.fst = FEATURE_CONFIG.map FeatureSpec.key ∧
    (∀ (m : List (String × RawValue)) (k : String) (v : RawValue),
      m.any (fun p => p.1 == k) = true →
      (handleChange m k v).map Prod.fst = m.map Prod.fst) := by
  refine ⟨?_, ?_, ?_, by decide, ?_⟩
  · intro f
    by_cases h : validateAllFeatures f FEATURE_CONFIG = []
    · right
      show (if validateAllFeatures f FEATURE_CONFIG = [] then some f else none) = some f
      rw [if_pos h]
    · left
      show (if validateAllFeatures f FEATURE_CONFIG = [] then some f else none) = none
      rw [if_neg h]
  · intro f s e hs hv
    show (s.key, e) ∈ validateAllFeatures f FEATURE_CONFIG
    unfold validateAllFeatures
    exact List.mem_filterMap.mpr ⟨s, hs, by rw [hv]; rfl⟩
  · intro f
    exact filterMap_keys_sublist FEATURE_CONFIG
      (fun s => validateFeature s.key (lookupRaw f s.key) FEATURE_CONFIG)
  · intro m k v h
    unfold handleChange
    rw [if_pos h]
    exact map_fst_update m k v

/-- Witness for the amended C4 at concrete inputs: the out-of-range field is
named in the error map, and rebinding an existing key keeps the schema key
order. -/
theorem validation_complete_ordered_passthrough_witness :
    ((handleSubmit outOfRangeInput).2 = none ∨
      (handleSubmit outOfRangeInput).2 = some outOfRangeInput) ∧
    ("koi_prad", "Planetary Radius must be at most 30") ∈ (handleSubmit outOfRangeInput).1 ∧
    (handleChange initialFeatures "koi_prad" (RawValue.vStr "abc")).map Prod.fst
      = initialFeatures.map Prod.fst :=
  ⟨validation_complete_ordered_passthrough.1 outOfRangeInput,
   validation_complete_ordered_passthrough.2.1 outOfRangeInput
     ⟨"koi_prad", "Planetary Radius", "Earth radii", 0.1, 30, 2.0,
      "Radius of the planet in Earth radii", false⟩
     "Planetary Radius must be at most 30" (by decide) (by decide),
   validation_complete_ordered_passthrough.2.2.2.2 initialFeatures "koi_prad"
     (RawValue.vStr "abc") (by decide)⟩

/-- C5 fails on the code: a raw map carrying the extra key `koi_bogus`, not
in the schema, passes validation with an empty error map and is submitted —
the unknown key is silently carried along, not rejected. -/
theorem unknown_key_silently_accepted_counterexample :
    (handleSubmit extraKeyInput).1 = [] ∧
    (handleSubmit extraKeyInput).2 = some extraKeyInput ∧
    "koi_bogus" ∈ extraKeyInput.map Prod.fst ∧
    "koi_bogus" ∉ FEATURE_CONFIG.map FeatureSpec.key := by
  refine ⟨by decide, ?_, by decide, by decide⟩
  show (if validateAllFeatures extraKeyInput FEATURE_CONFIG = []
        then some extraKeyInput else none) = some extraKeyInput
  rw [if_pos (by decide)]

/-- C5 amended: the submit-path validator iterates only over schema-declared
features and is insensitive to extra keys in the raw map (they are silently
ignored, not flagged); only a direct `validateFeature` call with an
out-of-schema key reports "Unknown feature: `<key>`" — and `koi_qof` is
declared in the form's `FEATURE_CONFIG`, so it is not unknown there. -/
theorem unknown_keys_silently_ignored :
    (∀ (f : List (String × RawValue)) (k : String) (v : RawValue),
      k ∉ FEATURE_CONFIG.map FeatureSpec.key →
      validateAllFeatures (f ++ [(k, v)]) FEATURE_CONFIG
        = validateAllFeatures f FEATURE_CONFIG) ∧
    (∀ (k : String) (v : RawValue) (config : List FeatureSpec),
      config.find? (fun s => s.key == k) = none →
      validateFeature k v config = some ("Unknown feature: " ++ k)) ∧
    "koi_qof" ∈ FEATURE_CONFIG.map FeatureSpec.key := by
  refine ⟨?_, ?_, by decide⟩
  · intro f k v hk
    unfold validateAllFeatures
    refine List.filterMap_congr ?_
    intro s hs
    have hne : s.key ≠ k := by
      intro he
      exact hk (he ▸ List.mem_map_of_mem FeatureSpec.key hs)
    rw [lookupRaw_append_ne f k s.key v hne]
  · intro k v config h
    unfold validateFeature
    rw [h]

/-- Witness for the amended C5 at concrete inputs. -/
theorem unknown_keys_silently_ignored_witness :
    validateAllFeatures (initialFeatures ++ [("koi_bogus", RawValue.vNum 1)]) FEATURE_CONFIG
      = validateAllFeatures initialFeatures FEATURE_CONFIG ∧
    validateFeature "zzz" RawValue.vNull FEATURE_CONFIG
      = some ("Unknown feature: " ++ "zzz") :=
  ⟨unknown_keys_silently_ignored.1 initialFeatures "koi_bogus" (RawValue.vNum 1) (by decide),
   unknown_keys_silently_ignored.2.1 "zzz" RawValue.vNull FEATURE_CONFIG (by decide)⟩

/-- C9: in the declared feature schema, every entry has `minimum ≤ maximum`,
and the keys are pairwise distinct. -/
theorem feature_config_invariants :
    FEATURE_CONFIG.all (fun f => decide (f.min ≤ f.max)) = true ∧
    (FEATURE_CONFIG.map FeatureSpec.key).Nodup := by
  exact ⟨by decide, by decide⟩

/-- C2: every classification result produced by the shaper has probabilities
summing to 1 within `1e-6`, confidence equal to the chosen label's
probability, and the label equal to the argmax over
`{CONFIRMED, FALSE POSITIVE}`; and every classification row persisted by the
seed file satisfies the same property. -/
theorem classification_result_wellformed :
    (∀ pC pFP : ℚ, ∀ c : ClassificationOutput,
      shapeClassification pC pFP = some c → classOutputOkB c = true) ∧
    (runInserts seedInserts).rows.all rowOutputOkB = true := by
  refine ⟨?_, by decide⟩
  intro pC pFP c h
  unfold shapeClassification at h
  by_cases hs : pC + pFP = 0
  · rw [if_pos hs] at h
    exact Option.noConfusion h
  · rw [if_neg hs] at h
    by_cases htol : |pC + pFP - 1| ≤ (1 : ℚ)/1000000
    · rw [if_pos htol, if_pos htol] at h
      have hc := Option.some_inj.mp h
      subst hc
      exact classOutputOkB_pair pC pFP htol
    · rw [if_neg htol, if_neg htol] at h
      have hsum : |pC / (pC + pFP) + pFP / (pC + pFP) - 1| ≤ (1 : ℚ)/1000000 := by
        rw [div_add_div_same, div_self hs]
        norm_num
      have hc := Option.some_inj.mp h
      subst hc
      exact classOutputOkB_pair _ _ hsum

/-- Witness for C2 at the served probabilities of the first seed row. -/
theorem classification_result_wellformed_witness :
    classOutputOkB ⟨"CONFIRMED", 0.92, 0.92, 0.08⟩ = true :=
  classification_result_wellformed.1 0.92 0.08
    ⟨"CONFIRMED", 0.92, 0.92, 0.08⟩ (by decide)

/-- C3 fails on the code: when the response omits `confidence_interval`, the
chart displays the interval `prediction ± 0.5` with no clipping — at the
legitimate point estimate 0.3 the displayed lower bound is −0.2 < 0. -/
theorem chart_fallback_negative_counterexample :
    (regressionChartData (some 0.3) none).1 = -0.2 ∧
    (regressionChartData (some 0.3) none).1 < 0 := by
  exact ⟨by decide, by decide⟩

/-- C3 amended: for shaper-constructed intervals (point estimate and standard
error nonnegative), `lower ≤ point ≤ upper` and `lower ≥ 0`, with the interval
`point ± 1.96 × SE` clipped at zero; but the interval the chart displays when
the response omits `confidence_interval` is `point ± 0.5`, unclipped, and can
be negative.  The persisted seed regression row satisfies the interval
property. -/
theorem regression_interval_wellformed (point se : ℚ)
    (hp : 0 ≤ point) (hse : 0 ≤ se) :
    regOutputOkB (shapeRegression point se) = true ∧
    (∀ p : ℚ, p ≠ 0 → regressionChartData (some p) none = (p - 0.5, p, p + 0.5)) ∧
    regOutputOkB ⟨2.47, 2.15, 2.79, "Earth radii"⟩ = true := by
  refine ⟨?_, ?_, by decide⟩
  · have hdelta : 0 ≤ (1.96 : ℚ) * se := by positivity
    unfold regOutputOkB shapeRegression
    simp only [Bool.and_eq_true, decide_eq_true_eq]
    refine ⟨⟨?_, ?_⟩, ?_⟩
    · exact max_le hp (by linarith)
    · linarith
    · exact le_max_left 0 _
  · intro p hp0
    unfold regressionChartData jsOrQ
    simp [hp0]

/-- Witness for the amended C3 at the seed row's parameters
(`2.47 ± 1.96 × (8/49)` is exactly `[2.15, 2.79]`) and at the chart fallback's
input 0.3. -/
theorem regression_interval_wellformed_witness :
    regOutputOkB (shapeRegression 2.47 (8/49)) = true ∧
    regressionChartData (some 0.3) none = (0.3 - 0.5, 0.3, 0.3 + 0.5) :=
  ⟨(regression_interval_wellformed 2.47 (8/49) (by decide) (by decide)).1,
   (regression_interval_wellformed 2.47 (8/49) (by decide) (by decide)).2.1 0.3 (by decide)⟩

/-- C6: in any table reachable by inserts from a fresh store, the stored ids
are strictly increasing in insertion order — so a record inserted later has
the strictly greater id — and in particular pairwise distinct. -/
theorem prediction_ids_strictly_increasing (l : List PredictionInsert) :
    ((runInserts l).rows.map PredictionRow.id).Pairwise (· < ·) ∧
    ((runInserts l).rows.map PredictionRow.id).Nodup :=
  ⟨(runInserts_inv l).2.1, ((runInserts_inv l).2.1).imp Nat.ne_of_lt⟩

/-- Witness for C6 at the concrete seed-insert sequence. -/
theorem prediction_ids_strictly_increasing_witness :
    (((runInserts seedInserts).rows.map PredictionRow.id).Pairwise (· < ·) ∧
      ((runInserts seedInserts).rows.map PredictionRow.id).Nodup) ∧
    (runInserts seedInserts).rows.map PredictionRow.id = [1, 2, 3] :=
  ⟨prediction_ids_strictly_increasing seedInserts, by decide⟩

/-- C7: no operation the core issues against the `predictions` table mutates
or removes an existing row — an insert appends, a select leaves the table as
is, so after any operation the old rows are an unchanged prefix. -/
theorem store_ops_never_mutate_or_delete (t : PredictionsTable) (op : StoreOp) :
    ∃ added : List PredictionRow, (applyOp t op).rows = t.rows ++ added := by
  cases op with
  | insertOp i =>
    unfold applyOp applyInsert insertPrediction
    cases hv : taskTypeValid i.taskType with
    | true =>
      refine ⟨[⟨t.nextId, i.taskType, i.inputFeatures, i.outputResult,
               i.modelName, i.createdAt⟩], ?_⟩
      simp [hv]
    | false =>
      refine ⟨[], ?_⟩
      simp [hv]
  | selectOp f lim off => exact ⟨[], (List.append_nil _).symm⟩

/-- Witness for C7 at the seeded table, for one insert and one select. -/
theorem store_ops_never_mutate_or_delete_witness :
    (∃ added : List PredictionRow,
      (applyOp (runInserts seedInserts) (StoreOp.insertOp seedInsert1)).rows
        = (runInserts seedInserts).rows ++ added) ∧
    (∃ added : List PredictionRow,
      (applyOp (runInserts seedInserts) (StoreOp.selectOp none 50 0)).rows
        = (runInserts seedInserts).rows ++ added) :=
  ⟨store_ops_never_mutate_or_delete (runInserts seedInserts) (StoreOp.insertOp seedInsert1),
   store_ops_never_mutate_or_delete (runInserts seedInserts) (StoreOp.selectOp none 50 0)⟩

/-- C8: the backend's non-2xx bodies are `{"detail": <nonempty message>}`
(modelled from the spec), and the client interceptor's rejected message is
`detail` when present (and nonempty), else `message`, else the transport
error message, else "Something went wrong" — never empty. -/
theorem error_message_chain :
    (∀ e : ApiError, (errorBody e).detail = some (errorDetail e) ∧ errorDetail e ≠ "") ∧
    (∀ (f : AxiosFailure) (s : String),
      jsTruthyStr (dataDetail f) = some s → interceptErrorMessage f = s) ∧
    (∀ (f : AxiosFailure) (s : String),
      jsTruthyStr (dataDetail f) = none → jsTruthyStr (dataMessage f) = some s →
      interceptErrorMessage f = s) ∧
    (∀ f : AxiosFailure,
      jsTruthyStr (dataDetail f) = none → jsTruthyStr (dataMessage f) = none →
      f.errMessage ≠ "" → interceptErrorMessage f = f.errMessage) ∧
    (∀ f : AxiosFailure,
      jsTruthyStr (dataDetail f) = none → jsTruthyStr (dataMessage f) = none →
      f.errMessage = "" → interceptErrorMessage f = "Something went wrong") ∧
    (∀ f : AxiosFailure, interceptErrorMessage f ≠ "") := by
  refine ⟨?_, ?_, ?_, ?_, ?_, ?_⟩
  · intro e
    refine ⟨rfl, ?_⟩
    cases e <;> simp [errorDetail]
  · intro f s h
    unfold interceptErrorMessage
    rw [show jsTruthyStr (f.responseData.bind ErrorResponseData.detail) = some s from h]
  · intro f s hd hm
    unfold interceptErrorMessage
    rw [show jsTruthyStr (f.responseData.bind ErrorResponseData.detail) = none from hd,
        show jsTruthyStr (f.responseData.bind ErrorResponseData.message) = some s from hm]
  · intro f hd hm he
    unfold interceptErrorMessage
    rw [show jsTruthyStr (f.responseData.bind ErrorResponseData.detail) = none from hd,
        show jsTruthyStr (f.responseData.bind ErrorResponseData.message) = none from hm,
        if_neg he]
  · intro f hd hm he
    unfold interceptErrorMessage
    rw [show jsTruthyStr (f.responseData.bind ErrorResponseData.detail) = none from hd,
        show jsTruthyStr (f.responseData.bind ErrorResponseData.message) = none from hm,
        if_pos he]
  · intro f
    unfold interceptErrorMessage
    cases hd : jsTruthyStr (f.responseData.bind ErrorResponseData.detail) with
    | some s => exact jsTruthyStr_some_ne _ s hd
    | none =>
      cases hm : jsTruthyStr (f.responseData.bind ErrorResponseData.message) with
      | some s => exact jsTruthyStr_some_ne _ s hm
      | none =>
        by_cases he : f.errMessage = ""
        · rw [if_pos he]
          decide
        · rw [if_neg he]
          exact he

/-- Witness for C8 at concrete failures exercising each step of the chain. -/
theorem error_message_chain_witness :
    ((errorBody ApiError.internalError).detail = some (errorDetail ApiError.internalError) ∧
      errorDetail ApiError.internalError ≠ "") ∧
    interceptErrorMessage ⟨some ⟨some "Invalid input", none⟩, "Network Error"⟩ = "Invalid input" ∧
    interceptErrorMessage ⟨some ⟨none, some "fallback message"⟩, "Network Error"⟩ = "fallback message" ∧
    interceptErrorMessage ⟨none, "Network Error"⟩ = "Network Error" ∧
    interceptErrorMessage ⟨none, ""⟩ = "Something went wrong" :=
  ⟨error_message_chain.1 ApiError.internalError,
   error_message_chain.2.1 ⟨some ⟨some "Invalid input", none⟩, "Network Error"⟩
     "Invalid input" (by decide),
   error_message_chain.2.2.1 ⟨some ⟨none, some "fallback message"⟩, "Network Error"⟩
     "fallback message" (by decide) (by decide),
   error_message_chain.2.2.2.1 ⟨none, "Network Error"⟩ (by decide) (by decide) (by decide),
   error_message_chain.2.2.2.2.1 ⟨none, ""⟩ (by decide) (by decide) rfl⟩

/-- C10: every row that can exist in the `predictions` table has `task_type`
equal to "classification" or "regression": the CHECK constraint makes any
other insert fail, leaving the table unchanged. -/
theorem task_type_check_constraint :
    (∀ (l : List PredictionInsert) (r : PredictionRow),
      r ∈ (runInserts l).rows →
      r.taskType = "classification" ∨ r.taskType = "regression") ∧
    (∀ (t : PredictionsTable) (i : PredictionInsert),
      taskTypeValid i.taskType = false →
      insertPrediction t i
        = Except.error "new row for relation predictions violates check constraint") := by
  constructor
  · intro l r hr
    have hv := (runInserts_inv l).2.2 r hr
    simpa [taskTypeValid] using hv
  · intro t i h
    unfold insertPrediction
    rw [if_neg (by simp [h])]

/-- Witness for C10: the first seed row is stored with a valid task type, and
an insert with task type "clustering" fails the CHECK constraint. -/
theorem task_type_check_constraint_witness :
    ((⟨1, "classification", seedInputFeatures1,
       .classification ⟨"CONFIRMED", 0.92, 0.92, 0.08⟩,
       "classification_pipeline_v1", -1⟩ : PredictionRow).taskType = "classification" ∨
     (⟨1, "classification", seedInputFeatures1,
       .classification ⟨"CONFIRMED", 0.92, 0.92, 0.08⟩,
       "classification_pipeline_v1", -1⟩ : PredictionRow).taskType = "regression") ∧
    insertPrediction emptyTable badTaskInsert
      = Except.error "new row for relation predictions violates check constraint" :=
  ⟨task_type_check_constraint.1 seedInserts
     ⟨1, "classification", seedInputFeatures1,
      .classification ⟨"CONFIRMED", 0.92, 0.92, 0.08⟩,
      "classification_pipeline_v1", -1⟩ (by decide),
   task_type_check_constraint.2 emptyTable badTaskInsert (by decide)⟩

end ExoIntel
